import Mathlib

/-
Verification of the interactive episode runner of play_nethack_human.py:
the action table and resolver, the character-grid renderer, the game
tracker, the per-step trajectory logging loop, and the episode lifecycle
around environment creation, reset, stepping and closing.
-/

namespace TWM

/-! ## Python string primitives used by the input pipeline -/

/-- Whitespace as recognised by str.strip and str.split with no argument:
space, tab, newline, carriage return, vertical tab, form feed. -/
def pySpace (c : Char) : Bool :=
  c.toNat = 32 || c.toNat = 9 || c.toNat = 10 || c.toNat = 13 ||
    c.toNat = 11 || c.toNat = 12

/-- Lowering of one character as str.lower performs it on the ASCII inputs
this program reads (full Unicode case mapping is not exercised here). -/
def pyLower (c : Char) : Char :=
  if 65 ≤ c.toNat ∧ c.toNat ≤ 90 then Char.ofNat (c.toNat + 32) else c

/-- Removal of leading and trailing whitespace, as str.strip(). -/
def trimChars (l : List Char) : List Char :=
  ((l.dropWhile pySpace).reverse.dropWhile pySpace).reverse

/-- The processed operator input of line 260: input().strip().lower(). -/
def procChars (l : List Char) : List Char :=
  (trimChars l).map pyLower

/-- String form of the processed input, as stored in the trajectory rows. -/
def procStr (s : String) : String :=
  String.mk (procChars s.data)

/-- Test whether the second list is an initial segment of the first, as
str.startswith. -/
def charsStartWith : List Char → List Char → Bool
  | _, [] => true
  | [], _ :: _ => false
  | c :: cs, d :: ds => c = d && charsStartWith cs ds

/-- Helper for whitespace splitting; the accumulator holds the current word
reversed. -/
def splitWsAux : List Char → List Char → List (List Char)
  | [], acc => if acc.isEmpty then [] else [acc.reverse]
  | c :: cs, acc =>
    if pySpace c then
      if acc.isEmpty then splitWsAux cs [] else acc.reverse :: splitWsAux cs []
    else splitWsAux cs (c :: acc)

/-- Whitespace splitting as str.split() with no argument: the maximal runs
of non-whitespace characters, empty pieces discarded. -/
def splitWs (l : List Char) : List (List Char) :=
  splitWsAux l []

/-- Decimal digit test. -/
def pyDigit (c : Char) : Bool :=
  48 ≤ c.toNat && c.toNat ≤ 57

/-- Numeric value of a digit string. -/
def digitsToNat (l : List Char) : Nat :=
  l.foldl (fun a c => a * 10 + (c.toNat - 48)) 0

/-- Parse of a nonempty all-digit string; anything else is rejected. -/
def pyNat? (l : List Char) : Option Nat :=
  if l ≠ [] ∧ l.all pyDigit then some (digitsToNat l) else none

/-- Parse as int() does on the whitespace-free tokens produced by split():
an optional sign followed by decimal digits, anything else raising
ValueError, modelled as none. (Python's digit-grouping underscores are not
exercised by this program and are not modelled.) -/
def pyInt? : List Char → Option Int
  | '-' :: rest => (pyNat? rest).map (fun m => -(Int.ofNat m))
  | '+' :: rest => (pyNat? rest).map Int.ofNat
  | l => (pyNat? l).map Int.ofNat

/-! ## Action table and resolver -/

/-- The static action table NLE_ACTIONS of lines 22-53. -/
def NLE_ACTIONS : List (String × Nat) :=
  [("more", 0), ("w", 1), ("d", 2), ("s", 3), ("a", 4), ("e", 5), ("c", 6),
   ("z", 7), ("q", 8), ("farnorth", 9), ("fareast", 10), ("farsouth", 11),
   ("farwest", 12), ("farnortheast", 13), ("farsoutheast", 14),
   ("farsouthwest", 15), ("farnorthwest", 16), ("up", 17), ("down", 18),
   ("wait", 19), ("kick", 20), ("eat", 21), ("search", 22)]

/-- Outcome of one attempt at reading an operator command, following the
branch structure of lines 262-287: the three meta commands, a resolved
action index, a failed parse of an action-prefixed input, or an input
matching nothing. -/
inductive Resolution where
  | quit
  | help
  | actionlist
  | act (idx : Int)
  | parseError
  | unknown
deriving DecidableEq

/-- The spec's UnknownCommand condition: the attempt is rejected, no action
index is produced, and the loop re-prompts. It covers both rejection paths
of the code: a failed parse of an action-prefixed input (lines 276-279) and
a name matching no table key (lines 284-287). -/
def Resolution.isUnknownCommand : Resolution → Bool
  | .parseError => true
  | .unknown => true
  | _ => false

/-- Resolution of an already stripped and lowered input against an action
table, mirroring lines 262-287: the quit, help and actionlist commands are
checked first, then the action-index escape hatch, then the table. -/
def resolveProcChars (table : List (List Char × Int)) (s : List Char) :
    Resolution :=
  if s = "quit".data then .quit
  else if s = "help".data then .help
  else if s = "actionlist".data then .actionlist
  else if charsStartWith s "action ".data then
    match (splitWs s).get? 1 with
    | none => .parseError
    | some tok =>
      match pyInt? tok with
      | some n => .act n
      | none => .parseError
  else
    match table.lookup s with
    | some n => .act n
    | none => .unknown

/-- Resolution of a raw input: strip and lower, then resolve. -/
def resolveChars (table : List (List Char × Int)) (raw : List Char) :
    Resolution :=
  resolveProcChars table (procChars raw)

/-- The NLE_ACTIONS table in the character-list form used by the resolver. -/
def nleTable : List (List Char × Int) :=
  NLE_ACTIONS.map (fun p => (p.1.data, (p.2 : Int)))

/-- Resolution of a raw operator input against the static table. -/
def resolveInput (raw : String) : Resolution :=
  resolveChars nleTable raw.data

/-! ## Observation values and snapshot serialization -/

/-- A numpy array value: a scalar entry or an array of subarrays. -/
inductive NDArr where
  | scalar (n : Int)
  | arr (elems : List NDArr)

/-- A plain JSON-serializable value: numbers, strings and nested lists. -/
inductive JsonVal where
  | num (n : Int)
  | str (s : String)
  | list (l : List JsonVal)

/-- A Python value held in an observation field: a numpy ndarray, or a plain
value that json.dump accepts as it is. -/
inductive PyVal where
  | ndarray (a : NDArr)
  | plain (j : JsonVal)

/-- ndarray.tolist(): recursive conversion of an array to nested plain
lists of scalars. -/
def ndToJson : NDArr → JsonVal
  | .scalar n => .num n
  | .arr l => .list (l.attach.map (fun x => ndToJson x.1))
decreasing_by
  have h := List.sizeOf_lt_of_mem x.2
  simp only [NDArr.arr.sizeOf_spec]
  omega

/-- The snapshot serialization loop of lines 322-327: fields that are numpy
arrays are converted with tolist(), every other field is kept as it is. -/
def serializeObs (fields : List (String × PyVal)) :
    List (String × PyVal) :=
  fields.map (fun p =>
    match p.2 with
    | .ndarray a => (p.1, PyVal.plain (ndToJson a))
    | .plain j => (p.1, PyVal.plain j))

/-- Observation as the loop sees it: an optional tty character grid (a
shape and a cell accessor, hasTty marking whether the key tty_chars is
present), the structured fields the debug snapshot serializes, and the
fallback str() rendering used when tty_chars is absent. -/
structure ObsD where
  hasTty : Bool
  ttyRows : Nat
  ttyCols : Nat
  ttyCell : Nat → Nat → Char
  fields : List (String × PyVal)
  reprS : String

/-! ## Renderer -/

/-- The character-grid rendering loop of display_game_state (lines 137-142),
also inlined for the csv observation string (lines 294-301): starting from
the empty string, append the character of each cell row by row, appending a
newline after each row. -/
def renderGrid (rows cols : Nat) (cell : Nat → Nat → Char) : String :=
  (List.range rows).foldl
    (fun acc i =>
      ((List.range cols).foldl (fun a j => a.push (cell i j)) acc).push '\n')
    ""

/-- Row-major concatenation of the grid characters with a newline appended
after each row, as the spec words the renderer contract. -/
def renderRowMajor (rows cols : Nat) (cell : Nat → Nat → Char) : String :=
  String.mk
    ((List.range rows).flatMap
      (fun i => (List.range cols).map (cell i) ++ ['\n']))

/-- The observation string stored in a trajectory row (lines 293-301):
the rendering of tty_chars when present, otherwise str() of the
observation. -/
def obsToStr (o : ObsD) : String :=
  if o.hasTty then renderGrid o.ttyRows o.ttyCols o.ttyCell else o.reprS

/-! ## GameTracker -/

/-- GameTracker state (lines 55-61). Rewards are exact rationals: the model
uses exact arithmetic for the scalar rewards the environment returns. -/
structure GameTracker where
  steps : Nat
  total_reward : ℚ
  rewards : List ℚ
  actions : List (String × Nat)
  last_observation : Option ObsD

/-- The freshly constructed tracker (lines 56-61). -/
def GameTracker.init : GameTracker :=
  { steps := 0, total_reward := 0, rewards := [], actions := [],
    last_observation := none }

/-- Update of the dict self.actions at lines 68-71: keys of a dict are
unique, so bumping the first matching entry is the dict update
self.actions[action] += 1, and a missing key is inserted with count 1. -/
def bumpAction : List (String × Nat) → String → List (String × Nat)
  | [], a => [(a, 1)]
  | p :: rest, a =>
    if p.1 = a then (p.1, p.2 + 1) :: rest else p :: bumpAction rest a

/-- GameTracker.add_step (lines 63-74). -/
def GameTracker.add_step (t : GameTracker) (action : String) (reward : ℚ)
    (observation : Option ObsD) : GameTracker :=
  { steps := t.steps + 1,
    total_reward := t.total_reward + reward,
    rewards := t.rewards ++ [reward],
    actions := bumpAction t.actions action,
    last_observation :=
      if observation.isSome then observation else t.last_observation }

/-- The dictionary returned by GameTracker.get_stats (lines 76-82). -/
structure Stats where
  steps : Nat
  total_reward : ℚ
  mean_reward : ℚ
  actions : List (String × Nat)
deriving DecidableEq

/-- GameTracker.get_stats (lines 76-82): mean_reward divides by
max(1, steps). -/
def GameTracker.get_stats (t : GameTracker) : Stats :=
  { steps := t.steps, total_reward := t.total_reward,
    mean_reward := t.total_reward / ((max 1 t.steps : Nat) : ℚ),
    actions := t.actions }

/-! ## Episode loop -/

/-- One data row of the trajectory csv (lines 303-310): step ordinal,
command string, action index, observation string, reward, done flag. -/
structure CsvRow where
  step : Nat
  action_str : String
  action : Int
  obsStr : String
  reward : ℚ
  done : Bool
deriving DecidableEq

/-- One line of the trajectory csv file: the header written at line 247 or
a data row. -/
inductive CsvLine where
  | header
  | data (row : CsvRow)
deriving DecidableEq

/-- What a successful env.step call returns, together with whether the
write of that step's debug snapshot fails afterwards (an external
filesystem or serialization failure at lines 319-328). -/
structure StepOk where
  nextObs : ObsD
  reward : ℚ
  done : Bool
  snapFails : Bool

/-- Outcome of one env.step call: a return value, or the call raising. -/
inductive StepOutcome where
  | ok (r : StepOk)
  | raises

/-- One episode's external behaviour: whether gym.make raises, whether
env.reset raises, the initial observation, the operator's input strings in
order, and the outcome of each env.step call in order. -/
structure Script where
  createFails : Bool
  resetFails : Bool
  initialObs : ObsD
  inputs : Nat → String
  envStep : Nat → StepOutcome

/-- The mutable state of the while loop of lines 249-337, together with the
csv data rows and debug snapshots written so far and counters of the
input() and env.step calls already made. The applied field counts the
successfully applied steps; it moves in lockstep with step. -/
structure LoopState where
  obs : ObsD
  done : Bool
  step : Nat
  applied : Nat
  episode_return : ℚ
  tracker : GameTracker
  csvRows : List CsvRow
  snaps : List (Nat × List (String × PyVal))
  inputCount : Nat
  envCalls : Nat

/-- The loop state at the top of the while loop (lines 249-251). -/
def initState (sc : Script) : LoopState :=
  { obs := sc.initialObs, done := false, step := 0, applied := 0,
    episode_return := 0, tracker := GameTracker.init, csvRows := [],
    snaps := [], inputCount := 0, envCalls := 0 }

/-- Result of one iteration of the loop body: continue to the next
iteration, or leave the loop through the break of line 264. -/
inductive IterOut where
  | cont (st : LoopState)
  | quitLoop (st : LoopState)

/-- One iteration of the loop body (lines 253-337). The operator input is
read and resolved; quit breaks out; help, actionlist and both rejection
paths continue without touching the environment; a resolved action is
passed to env.step. A raising env.step records nothing (lines 333-337). A
successful step appends the csv row, updates the tracker, accumulates the
return, replaces the observation, increments the step counter, and then
writes the debug snapshot of the new observation under the incremented
step number — unless that snapshot write fails, which is caught by the
same handler and changes nothing already recorded. -/
def loopIter (sc : Script) (st : LoopState) : IterOut :=
  let raw := sc.inputs st.inputCount
  let st0 := { st with inputCount := st.inputCount + 1 }
  match resolveInput raw with
  | .quit => .quitLoop st0
  | .help => .cont st0
  | .actionlist => .cont st0
  | .parseError => .cont st0
  | .unknown => .cont st0
  | .act a =>
    match sc.envStep st0.envCalls with
    | .raises => .cont { st0 with envCalls := st0.envCalls + 1 }
    | .ok r =>
      let actionStr := procStr raw
      let row : CsvRow :=
        { step := st0.step, action_str := actionStr, action := a,
          obsStr := obsToStr r.nextObs, reward := r.reward, done := r.done }
      let st1 : LoopState :=
        { st0 with
          csvRows := st0.csvRows ++ [row],
          tracker := st0.tracker.add_step actionStr r.reward (some r.nextObs),
          episode_return := st0.episode_return + r.reward,
          obs := r.nextObs,
          done := r.done,
          step := st0.step + 1,
          applied := st0.applied + 1,
          envCalls := st0.envCalls + 1 }
      if r.snapFails then .cont st1
      else
        .cont { st1 with
                snaps := st1.snaps ++ [(st1.step, serializeObs r.nextObs.fields)] }

/-- Why the while loop was left. -/
inductive TermReason where
  | envDone
  | stepLimit
  | userQuit
deriving DecidableEq

/-- The while loop of line 253, run with explicit fuel bounding the number
of iterations simulated (the real loop can iterate unboundedly on inputs
that never step the environment); none means the fuel ran out, a modelling
artifact and not a behaviour of the program. The loop exits when done is
set, when the step counter reaches max_steps, or through quit. -/
def loopRun (sc : Script) (max_steps : Nat) :
    Nat → LoopState → Option (LoopState × TermReason)
  | 0, _ => none
  | fuel + 1, st =>
    if st.done then some (st, .envDone)
    else if max_steps ≤ st.step then some (st, .stepLimit)
    else
      match loopIter sc st with
      | .quitLoop st1 => some (st1, .userQuit)
      | .cont st1 => loopRun sc max_steps fuel st1

/-- The persisted episode summary: episode_log after the update of lines
339-341 merges the tracker stats and attaches episode_return and
num_steps. -/
structure Summary where
  steps : Nat
  total_reward : ℚ
  mean_reward : ℚ
  actions : List (String × Nat)
  episode_return : ℚ
  num_steps : Nat
deriving DecidableEq

/-- Finalization of the summary (lines 339-341). -/
def mkSummary (st : LoopState) : Summary :=
  { steps := st.tracker.get_stats.steps,
    total_reward := st.tracker.get_stats.total_reward,
    mean_reward := st.tracker.get_stats.mean_reward,
    actions := st.tracker.get_stats.actions,
    episode_return := st.episode_return,
    num_steps := st.step }

/-- How run_human_episode returned. -/
inductive RunResult where
  | abortCreate
  | abortReset
  | finished (reason : TermReason)
  | outOfFuel
deriving DecidableEq

/-- Everything observable about one call of run_human_episode: how it
returned, whether the environment was ever constructed, whether env.close
was invoked before returning, the full trajectory csv file, the persisted
summary, and the debug snapshots written. -/
structure RunOutcome where
  result : RunResult
  envCreated : Bool
  envClosed : Bool
  csvFile : Option (List CsvLine)
  summary : Option Summary
  snaps : List (Nat × List (String × PyVal))
  appliedSteps : Nat

/-- run_human_episode (lines 205-351). If gym.make raises, the error record
is returned at line 236 before any environment exists. If env.reset raises,
the error record is returned at line 243: the environment was constructed
but env.close is not reached. Otherwise the csv file is opened, the header
row is written, the loop runs, and on leaving it the summary is persisted
and env.close() (line 346) is invoked before the return of line 351. -/
def runEpisode (sc : Script) (max_steps fuel : Nat) : RunOutcome :=
  if sc.createFails then
    { result := .abortCreate, envCreated := false, envClosed := false,
      csvFile := none, summary := none, snaps := [], appliedSteps := 0 }
  else if sc.resetFails then
    { result := .abortReset, envCreated := true, envClosed := false,
      csvFile := none, summary := none, snaps := [], appliedSteps := 0 }
  else
    match loopRun sc max_steps fuel (initState sc) with
    | none =>
      { result := .outOfFuel, envCreated := true, envClosed := false,
        csvFile := none, summary := none, snaps := [], appliedSteps := 0 }
    | some (st, reason) =>
      { result := .finished reason, envCreated := true, envClosed := true,
        csvFile := some (CsvLine.header :: st.csvRows.map CsvLine.data),
        summary := some (mkSummary st), snaps := st.snaps,
        appliedSteps := st.applied }

/-- The reward recorded in a csv line, none for the header. -/
def lineReward : CsvLine → Option ℚ
  | .header => none
  | .data row => some row.reward

/-! ## Derived definitions used by the statements and proofs -/

/-- The state carried out of one loop iteration. -/
def iterState : IterOut → LoopState
  | .cont st => st
  | .quitLoop st => st

/-- Bookkeeping invariant of the tracker: the cumulative reward is the sum
of the reward list, and the step count is both the length of the reward
list and the total of the per-action counts. -/
def TrackerInv (t : GameTracker) : Prop :=
  t.total_reward = t.rewards.sum ∧
  t.steps = t.rewards.length ∧
  ((t.actions.map Prod.snd).sum = t.steps)

/-- Bookkeeping invariant of the loop state: one csv data row per applied
step, the applied counter in lockstep with the step counter, and the
accumulated return equal to the sum of the logged rewards. -/
def LoopInv (st : LoopState) : Prop :=
  st.csvRows.length = st.step ∧
  st.applied = st.step ∧
  st.episode_return = (st.csvRows.map CsvRow.reward).sum

/-- A finite sequence of add_step calls applied to a fresh tracker. -/
def runTracker (l : List (String × ℚ × Option ObsD)) : GameTracker :=
  l.foldl (fun t x => t.add_step x.1 x.2.1 x.2.2) GameTracker.init

/-- The 3-row, 2-column grid filled row-major with the characters of
ABCDEF. -/
def grid32 (i j : Nat) : Char :=
  "ABCDEF".data.getD (i * 2 + j) ' '

/-- The 2-row, 3-column grid filled row-major with the characters of
ABCDEF. -/
def grid23 (i j : Nat) : Char :=
  "ABCDEF".data.getD (i * 3 + j) ' '

/-! ## Concrete observations and scripts for instances -/

/-- A minimal observation without tty_chars and with no structured
fields. -/
def obs0 : ObsD :=
  { hasTty := false, ttyRows := 0, ttyCols := 0, ttyCell := fun _ _ => ' ',
    fields := [], reprS := "o" }

/-- An observation holding one numpy-array field. -/
def obsF : ObsD :=
  { hasTty := false, ttyRows := 0, ttyCols := 0, ttyCell := fun _ _ => ' ',
    fields := [("glyphs", PyVal.ndarray (NDArr.arr [NDArr.scalar 1, NDArr.scalar 2]))],
    reprS := "f" }

/-- A script whose env.reset raises. -/
def scReset : Script :=
  { createFails := false, resetFails := true, initialObs := obs0,
    inputs := fun _ => "quit", envStep := fun _ => .raises }

/-- A script whose operator quits immediately. -/
def scQuit : Script :=
  { createFails := false, resetFails := false, initialObs := obs0,
    inputs := fun _ => "quit", envStep := fun _ => .raises }

/-- A script whose operator keeps choosing action w while every env.step
call raises. -/
def scRaise : Script :=
  { createFails := false, resetFails := false, initialObs := obs0,
    inputs := fun _ => "w", envStep := fun _ => .raises }

/-- A script whose operator keeps typing an unrecognized command. -/
def scBad : Script :=
  { createFails := false, resetFails := false, initialObs := obs0,
    inputs := fun _ => "xyzzy", envStep := fun _ => .raises }

/-- A script with one successful step of reward 3 followed by quit. -/
def scOne : Script :=
  { createFails := false, resetFails := false, initialObs := obs0,
    inputs := fun n => if n = 0 then "w" else "quit",
    envStep := fun _ =>
      .ok { nextObs := obs0, reward := 3, done := false, snapFails := false } }

/-- A script with one successful step whose debug snapshot write fails. -/
def scSnap : Script :=
  { createFails := false, resetFails := false, initialObs := obs0,
    inputs := fun n => if n = 0 then "w" else "quit",
    envStep := fun _ =>
      .ok { nextObs := obsF, reward := 2, done := false, snapFails := true } }

/-! ## Tracker lemmas -/

theorem bumpAction_snd_sum (m : List (String × Nat)) (a : String) :
    ((bumpAction m a).map Prod.snd).sum = (m.map Prod.snd).sum + 1 := by
  induction m with
  | nil => simp [bumpAction]
  | cons p rest ih =>
    by_cases h : p.1 = a
    · simp [bumpAction, h]
      omega
    · simp [bumpAction, h, ih]
      omega

theorem trackerInv_init : TrackerInv GameTracker.init := by
  simp [TrackerInv, GameTracker.init]

theorem trackerInv_add (t : GameTracker) (a : String) (r : ℚ)
    (o : Option ObsD) (h : TrackerInv t) : TrackerInv (t.add_step a r o) := by
  obtain ⟨h1, h2, h3⟩ := h
  refine ⟨?_, ?_, ?_⟩
  · simp [GameTracker.add_step, h1]
  · simp [GameTracker.add_step, h2]
  · simp [GameTracker.add_step, bumpAction_snd_sum, h3]

theorem trackerInv_foldl (l : List (String × ℚ × Option ObsD))
    (t : GameTracker) (h : TrackerInv t) :
    TrackerInv (l.foldl (fun t x => t.add_step x.1 x.2.1 x.2.2) t) := by
  induction l generalizing t with
  | nil => exact h
  | cons x xs ih => exact ih _ (trackerInv_add _ _ _ _ h)

theorem trackerInv_runTracker (l : List (String × ℚ × Option ObsD)) :
    TrackerInv (runTracker l) :=
  trackerInv_foldl l _ trackerInv_init

/-! ## Renderer lemmas -/

theorem data_push (s : String) (c : Char) : (s.push c).data = s.data ++ [c] :=
  rfl

theorem foldl_push_data (l : List Nat) (g : Nat → Char) (s : String) :
    (l.foldl (fun a j => a.push (g j)) s).data = s.data ++ l.map g := by
  induction l generalizing s with
  | nil => simp
  | cons x xs ih =>
    rw [List.foldl_cons, ih]
    simp [String.push]

theorem render_foldl_data (idxs : List Nat) (cols : Nat)
    (cell : Nat → Nat → Char) (s : String) :
    (idxs.foldl
      (fun acc i =>
        ((List.range cols).foldl (fun a j => a.push (cell i j)) acc).push '\n')
      s).data
    = s.data ++ idxs.flatMap (fun i => (List.range cols).map (cell i) ++ ['\n']) := by
  induction idxs generalizing s with
  | nil => simp
  | cons x xs ih =>
    rw [List.foldl_cons, ih, data_push, foldl_push_data]
    simp [List.append_assoc]

theorem renderGrid_eq_rowMajor (rows cols : Nat) (cell : Nat → Nat → Char) :
    renderGrid rows cols cell = renderRowMajor rows cols cell := by
  apply String.ext
  rw [renderGrid, renderRowMajor]
  rw [render_foldl_data]
  rfl

theorem flatMap_newline (rows : Nat) :
    ((List.range rows).flatMap fun _ => ['\n']) = List.replicate rows '\n' := by
  induction rows with
  | zero => rfl
  | succ r ih =>
    rw [List.range_succ, List.flatMap_append, ih]
    exact Eq.symm (List.replicate_succ' r '\n')

theorem renderGrid_zero_cols (rows : Nat) (cell : Nat → Nat → Char) :
    (renderGrid rows 0 cell).data = List.replicate rows '\n' := by
  rw [renderGrid, render_foldl_data]
  simpa using flatMap_newline rows

/-! ## Loop invariant lemmas -/

theorem loopInv_init (sc : Script) : LoopInv (initState sc) := by
  simp [LoopInv, initState]

theorem loopInv_iter (sc : Script) (st : LoopState) (h : LoopInv st) :
    LoopInv (iterState (loopIter sc st)) := by
  obtain ⟨h1, h2, h3⟩ := h
  rw [loopIter]
  cases hres : resolveInput (sc.inputs st.inputCount) with
  | quit => exact ⟨h1, h2, h3⟩
  | help => exact ⟨h1, h2, h3⟩
  | actionlist => exact ⟨h1, h2, h3⟩
  | parseError => exact ⟨h1, h2, h3⟩
  | unknown => exact ⟨h1, h2, h3⟩
  | act a =>
    cases henv : sc.envStep st.envCalls with
    | raises => exact ⟨h1, h2, h3⟩
    | ok r =>
      by_cases hsnap : r.snapFails
      · simp only [hsnap, if_true, iterState, LoopInv]
        refine ⟨?_, ?_, ?_⟩
        · simp [h1]
        · simp [h2]
        · simp [h3]
      · simp only [hsnap, if_false, iterState, LoopInv]
        refine ⟨?_, ?_, ?_⟩
        · simp [h1]
        · simp [h2]
        · simp [h3]

theorem loopInv_run (sc : Script) (max_steps : Nat) :
    ∀ (fuel : Nat) (st fin : LoopState) (r : TermReason),
      LoopInv st → loopRun sc max_steps fuel st = some (fin, r) → LoopInv fin := by
  intro fuel
  induction fuel with
  | zero =>
    intro st fin r h hrun
    simp [loopRun] at hrun
  | succ n ih =>
    intro st fin r h hrun
    rw [loopRun] at hrun
    by_cases hd : st.done = true
    · simp only [hd, if_true] at hrun
      cases hrun
      exact h
    · simp only [hd, if_false] at hrun
      by_cases hm : max_steps ≤ st.step
      · simp only [hm, if_true] at hrun
        cases hrun
        exact h
      · simp only [hm, if_false] at hrun
        have hit := loopInv_iter sc st h
        cases hcase : loopIter sc st with
        | quitLoop st1 =>
          rw [hcase] at hrun hit
          cases hrun
          exact hit
        | cont st1 =>
          rw [hcase] at hrun hit
          exact ih st1 fin r hit hrun

/-! ## Input pipeline lemmas -/

theorem pyDigit_not_space (c : Char) (h : pyDigit c = true) : pySpace c = false := by
  simp only [pyDigit, Bool.and_eq_true, decide_eq_true_eq] at h
  simp only [pySpace, Bool.or_eq_false_iff, decide_eq_false_iff_not]
  omega

theorem pyDigit_lower (c : Char) (h : pyDigit c = true) : pyLower c = c := by
  simp only [pyDigit, Bool.and_eq_true, decide_eq_true_eq] at h
  rw [pyLower, if_neg]
  omega

theorem pyNat_shape (l : List Char) (m : Nat) (h : pyNat? l = some m) :
    l ≠ [] ∧ l.all pyDigit = true := by
  rw [pyNat?] at h
  split at h
  · exact And.imp_right (fun hb => hb) (by assumption)
  · exact absurd h (by simp)

theorem pyInt_token_shape (tok : List Char) (n : Int) (h : pyInt? tok = some n) :
    tok ≠ [] ∧ (∀ c ∈ tok, pySpace c = false) ∧ (∀ c ∈ tok, pyLower c = c) ∧
    (∃ init d, tok = init ++ [d] ∧ pyDigit d = true) := by
  rw [pyInt?.eq_def] at h
  split at h
  case h_1 rest =>
    rw [Option.map_eq_some'] at h
    obtain ⟨m, hm, _⟩ := h
    obtain ⟨hne, hall⟩ := pyNat_shape rest m hm
    rw [List.all_eq_true] at hall
    rcases List.eq_nil_or_concat rest with rfl | ⟨ini, d, hrest⟩
    · exact absurd rfl hne
    · subst hrest
      rw [List.concat_eq_append] at hall ⊢
      refine ⟨by simp, ?_, ?_, '-' :: ini, d, by simp, hall d (by simp)⟩
      · intro c hc
        rw [List.mem_cons] at hc
        rcases hc with rfl | hc
        · decide
        · exact pyDigit_not_space c (hall c hc)
      · intro c hc
        rw [List.mem_cons] at hc
        rcases hc with rfl | hc
        · decide
        · exact pyDigit_lower c (hall c hc)
  case h_2 rest =>
    rw [Option.map_eq_some'] at h
    obtain ⟨m, hm, _⟩ := h
    obtain ⟨hne, hall⟩ := pyNat_shape rest m hm
    rw [List.all_eq_true] at hall
    rcases List.eq_nil_or_concat rest with rfl | ⟨ini, d, hrest⟩
    · exact absurd rfl hne
    · subst hrest
      rw [List.concat_eq_append] at hall ⊢
      refine ⟨by simp, ?_, ?_, '+' :: ini, d, by simp, hall d (by simp)⟩
      · intro c hc
        rw [List.mem_cons] at hc
        rcases hc with rfl | hc
        · decide
        · exact pyDigit_not_space c (hall c hc)
      · intro c hc
        rw [List.mem_cons] at hc
        rcases hc with rfl | hc
        · decide
        · exact pyDigit_lower c (hall c hc)
  case h_3 =>
    rw [Option.map_eq_some'] at h
    obtain ⟨m, hm, _⟩ := h
    obtain ⟨hne, hall⟩ := pyNat_shape tok m hm
    rw [List.all_eq_true] at hall
    rcases List.eq_nil_or_concat tok with rfl | ⟨ini, d, hrest⟩
    · exact absurd rfl hne
    · subst hrest
      rw [List.concat_eq_append] at hall ⊢
      exact ⟨by simp, fun c hc => pyDigit_not_space c (hall c hc),
        fun c hc => pyDigit_lower c (hall c hc), ini, d, rfl, hall d (by simp)⟩

theorem map_pyLower_self (l : List Char) (h : ∀ c ∈ l, pyLower c = c) :
    l.map pyLower = l := by
  induction l with
  | nil => rfl
  | cons x xs ih =>
    rw [List.map_cons, h x (by simp), ih (fun c hc => h c (by simp [hc]))]

theorem dropWhile_head_false (p : Char → Bool) (c : Char) (l : List Char)
    (h : p c = false) : (c :: l).dropWhile p = c :: l := by
  rw [List.dropWhile_cons, h]
  simp

theorem trimChars_ends (c : Char) (mid : List Char) (d : Char)
    (hc : pySpace c = false) (hd : pySpace d = false) :
    trimChars (c :: (mid ++ [d])) = c :: (mid ++ [d]) := by
  rw [trimChars, dropWhile_head_false pySpace c _ hc]
  have hrev : (c :: (mid ++ [d])).reverse = d :: (mid.reverse ++ [c]) := by
    simp
  rw [hrev, dropWhile_head_false pySpace d _ hd, ← hrev, List.reverse_reverse]

theorem charsStartWith_append (p r : List Char) :
    charsStartWith (p ++ r) p = true := by
  induction p with
  | nil => cases r <;> rfl
  | cons x xs ih => simp [charsStartWith, ih]

theorem splitWsAux_no_space (tok : List Char) (h : ∀ c ∈ tok, pySpace c = false) :
    ∀ acc : List Char,
      splitWsAux tok acc =
        if (acc.reverse ++ tok).isEmpty then [] else [acc.reverse ++ tok] := by
  induction tok with
  | nil =>
    intro acc
    rw [splitWsAux]
    cases acc <;> simp
  | cons x xs ih =>
    intro acc
    rw [splitWsAux, h x (by simp), if_neg (by simp)]
    rw [ih (fun c hc => h c (by simp [hc])) (x :: acc)]
    simp

theorem splitWs_action_token (tok : List Char) (hne : tok ≠ [])
    (h : ∀ c ∈ tok, pySpace c = false) :
    splitWs ("action ".data ++ tok) = ["action".data, tok] := by
  have hd : "action ".data = ['a', 'c', 't', 'i', 'o', 'n', ' '] := rfl
  rw [splitWs, hd]
  simp only [List.cons_append, List.nil_append]
  rw [splitWsAux, if_neg (by decide)]
  rw [splitWsAux, if_neg (by decide)]
  rw [splitWsAux, if_neg (by decide)]
  rw [splitWsAux, if_neg (by decide)]
  rw [splitWsAux, if_neg (by decide)]
  rw [splitWsAux, if_neg (by decide)]
  rw [splitWsAux, if_pos (by decide), if_neg (by decide)]
  rw [splitWsAux_no_space tok h []]
  have : tok.isEmpty = false := by
    cases tok
    · exact absurd rfl hne
    · rfl
  simp [this]

theorem resolveChars_action_escape (table : List (List Char × Int))
    (tok : List Char) (n : Int) (h : pyInt? tok = some n) :
    resolveChars table ("action ".data ++ tok) = Resolution.act n := by
  obtain ⟨hne, hnospace, hlower, ini, d, hsplit, hdig⟩ := pyInt_token_shape tok n h
  have hshape : "action ".data ++ tok = 'a' :: (("ction ".data ++ ini) ++ [d]) := by
    rw [hsplit]
    simp
  have htrim : trimChars ("action ".data ++ tok) = "action ".data ++ tok := by
    rw [hshape, trimChars_ends 'a' _ d (by decide) (pyDigit_not_space d hdig)]
  have hproc : procChars ("action ".data ++ tok) = "action ".data ++ tok := by
    rw [procChars, htrim, List.map_append, map_pyLower_self tok hlower]
    congr 1
  rw [resolveChars, hproc, resolveProcChars]
  rw [if_neg (by simp), if_neg (by simp), if_neg (by simp),
    if_pos (charsStartWith_append "action ".data tok)]
  rw [splitWs_action_token tok hne hnospace]
  simp [h]

/-! ## Loop body lemmas -/

theorem loopIter_raises (sc : Script) (st : LoopState) (a : Int)
    (hres : resolveInput (sc.inputs st.inputCount) = Resolution.act a)
    (henv : sc.envStep st.envCalls = StepOutcome.raises) :
    loopIter sc st =
      IterOut.cont
        { st with inputCount := st.inputCount + 1, envCalls := st.envCalls + 1 } := by
  simp only [loopIter, hres, henv]

theorem loopRun_cont (sc : Script) (max_steps fuel : Nat) (st st1 : LoopState)
    (hd : st.done = false) (hlt : st.step < max_steps)
    (hit : loopIter sc st = IterOut.cont st1) :
    loopRun sc max_steps (fuel + 1) st = loopRun sc max_steps fuel st1 := by
  rw [loopRun, hd, hit]
  simp [Nat.not_le.mpr hlt]

theorem loopIter_reject (sc : Script) (st : LoopState)
    (hres : (resolveInput (sc.inputs st.inputCount)).isUnknownCommand = true) :
    loopIter sc st = IterOut.cont { st with inputCount := st.inputCount + 1 } := by
  cases hr : resolveInput (sc.inputs st.inputCount) <;>
    simp [Resolution.isUnknownCommand, hr] at hres ⊢ <;>
    simp only [loopIter, hr]

theorem loopIter_snapfail (sc : Script) (st : LoopState) (a : Int) (r : StepOk)
    (hres : resolveInput (sc.inputs st.inputCount) = Resolution.act a)
    (henv : sc.envStep st.envCalls = StepOutcome.ok r)
    (hsnap : r.snapFails = true) :
    ∃ st1 row, loopIter sc st = IterOut.cont st1 ∧ st1.snaps = st.snaps ∧
      st1.csvRows = st.csvRows ++ [row] := by
  refine
    ⟨{ st with
        inputCount := st.inputCount + 1,
        csvRows := st.csvRows ++
          [{ step := st.step, action_str := procStr (sc.inputs st.inputCount),
             action := a, obsStr := obsToStr r.nextObs, reward := r.reward,
             done := r.done }],
        tracker := st.tracker.add_step (procStr (sc.inputs st.inputCount))
          r.reward (some r.nextObs),
        episode_return := st.episode_return + r.reward,
        obs := r.nextObs, done := r.done, step := st.step + 1,
        applied := st.applied + 1, envCalls := st.envCalls + 1 },
      { step := st.step, action_str := procStr (sc.inputs st.inputCount),
        action := a, obsStr := obsToStr r.nextObs, reward := r.reward,
        done := r.done }, ?_, rfl, rfl⟩
  simp only [loopIter, hres, henv, hsnap, if_true]

/-! ## Claim theorems -/

/-- C1 (amended): env.close is invoked before run_human_episode returns on
every normal terminal state (termination by the environment, by the step
limit, or by user quit), but not on the abort paths: when construction
raises no environment exists to close, and when reset raises the function
returns with the already-constructed environment left unclosed. -/
theorem env_close_on_terminal_paths (sc : Script) (max_steps fuel : Nat) :
    (∀ reason, (runEpisode sc max_steps fuel).result = RunResult.finished reason →
      (runEpisode sc max_steps fuel).envClosed = true) ∧
    ((runEpisode sc max_steps fuel).result = RunResult.abortCreate →
      (runEpisode sc max_steps fuel).envCreated = false ∧
      (runEpisode sc max_steps fuel).envClosed = false) ∧
    ((runEpisode sc max_steps fuel).result = RunResult.abortReset →
      (runEpisode sc max_steps fuel).envCreated = true ∧
      (runEpisode sc max_steps fuel).envClosed = false) := by
  by_cases hc : sc.createFails = true
  · simp [runEpisode, hc]
  · by_cases hr : sc.resetFails = true
    · simp [runEpisode, hc, hr]
    · cases hlr : loopRun sc max_steps fuel (initState sc) with
      | none => simp [runEpisode, hc, hr, hlr]
      | some p => simp [runEpisode, hc, hr, hlr]

/-- C1 witness: a finished run has closed the environment; a run aborted by
reset failure has constructed it without closing it. -/
theorem env_close_on_terminal_paths_witness :
    (runEpisode scOne 5 3).envClosed = true ∧
    (runEpisode scReset 5 3).envCreated = true ∧
    (runEpisode scReset 5 3).envClosed = false :=
  ⟨(env_close_on_terminal_paths scOne 5 3).1 TermReason.userQuit rfl,
   (env_close_on_terminal_paths scReset 5 3).2.2 rfl⟩

/-- C1 counterexample: when env.reset raises, run_human_episode returns the
error record at line 243 with the environment constructed but never closed,
so the claim that env.close is invoked on the reset-failure abort path is
false. -/
theorem reset_failure_skips_close :
    (runEpisode scReset 5 5).result = RunResult.abortReset ∧
    (runEpisode scReset 5 5).envCreated = true ∧
    (runEpisode scReset 5 5).envClosed = false :=
  ⟨rfl, rfl, rfl⟩

/-- C2: if env.step raises while the loop is running (done unset and the
step counter below the limit), the iteration appends no csv row, leaves the
step counter, done flag, tracker, return and snapshots untouched (only the
two call counters advance), and the loop continues with the next prompt
instead of exiting. -/
theorem step_failure_recoverable (sc : Script) (st : LoopState) (a : Int)
    (max_steps fuel : Nat)
    (hres : resolveInput (sc.inputs st.inputCount) = Resolution.act a)
    (henv : sc.envStep st.envCalls = StepOutcome.raises)
    (hd : st.done = false) (hlt : st.step < max_steps) :
    loopIter sc st =
      IterOut.cont
        { st with inputCount := st.inputCount + 1, envCalls := st.envCalls + 1 } ∧
    loopRun sc max_steps (fuel + 1) st =
      loopRun sc max_steps fuel
        { st with inputCount := st.inputCount + 1, envCalls := st.envCalls + 1 } :=
  have h := loopIter_raises sc st a hres henv
  ⟨h, loopRun_cont sc max_steps fuel st _ hd hlt h⟩

/-- C2 witness: the recoverable step failure on a concrete script whose
env.step always raises. -/
theorem step_failure_recoverable_witness :
    loopIter scRaise (initState scRaise) =
      IterOut.cont { initState scRaise with inputCount := 1, envCalls := 1 } ∧
    loopRun scRaise 5 1 (initState scRaise) =
      loopRun scRaise 5 0 { initState scRaise with inputCount := 1, envCalls := 1 } :=
  step_failure_recoverable scRaise (initState scRaise) 1 5 0 rfl rfl rfl
    (by decide)

/-- C3: whenever a run persists both a trajectory file and a summary, the
file holds the header plus exactly one data row per successfully applied
step, and the summary's num_steps equals that number of applied steps. -/
theorem traj_rows_match_steps (sc : Script) (max_steps fuel : Nat)
    (f : List CsvLine) (s : Summary)
    (hf : (runEpisode sc max_steps fuel).csvFile = some f)
    (hs : (runEpisode sc max_steps fuel).summary = some s) :
    f.length = (runEpisode sc max_steps fuel).appliedSteps + 1 ∧
    s.num_steps = (runEpisode sc max_steps fuel).appliedSteps := by
  by_cases hc : sc.createFails = true
  · rw [runEpisode, if_pos hc] at hf
    exact absurd hf (by simp)
  · by_cases hr : sc.resetFails = true
    · rw [runEpisode, if_neg hc, if_pos hr] at hf
      exact absurd hf (by simp)
    · cases hlr : loopRun sc max_steps fuel (initState sc) with
      | none =>
        rw [runEpisode, if_neg hc, if_neg hr, hlr] at hf
        exact absurd hf (by simp)
      | some p =>
        obtain ⟨st, reason⟩ := p
        obtain ⟨hinv1, hinv2, hinv3⟩ :=
          loopInv_run sc max_steps fuel (initState sc) st reason
            (loopInv_init sc) hlr
        rw [runEpisode, if_neg hc, if_neg hr, hlr] at hf hs ⊢
        simp only [Option.some.injEq] at hf hs
        subst hf
        subst hs
        refine ⟨?_, ?_⟩
        · simp [hinv1, hinv2]
        · simp [mkSummary, hinv2]

/-- C3 witness: one successful step, then quit: two file lines (header and
one data row) and num_steps equal to one applied step. -/
theorem traj_rows_match_steps_witness :
    ([CsvLine.header,
      CsvLine.data
        { step := 0, action_str := "w", action := 1, obsStr := "o",
          reward := 3, done := false }] : List CsvLine).length =
      (runEpisode scOne 5 3).appliedSteps + 1 ∧
    ({ steps := 1, total_reward := 3, mean_reward := 3, actions := [("w", 1)],
       episode_return := 3, num_steps := 1 } : Summary).num_steps =
      (runEpisode scOne 5 3).appliedSteps :=
  traj_rows_match_steps scOne 5 3 _ _ (by with_unfolding_all decide)
    (by with_unfolding_all decide)

/-- C4 (amended): the renderer produces the row-major concatenation of the
grid characters with a newline appended after each row; the 2-row, 3-column
grid of the codes of ABCDEF renders as the string holding ABC, a newline,
DEF and a newline; a grid with zero rows renders as the empty string; and a
grid with r rows and zero columns renders as r newline characters. -/
theorem render_row_major_contract :
    (∀ (rows cols : Nat) (cell : Nat → Nat → Char),
      renderGrid rows cols cell = renderRowMajor rows cols cell) ∧
    renderGrid 2 3 grid23 = "ABC\nDEF\n" ∧
    (∀ (cols : Nat) (cell : Nat → Nat → Char), renderGrid 0 cols cell = "") ∧
    (∀ (rows : Nat) (cell : Nat → Nat → Char),
      (renderGrid rows 0 cell).data = List.replicate rows '\n') :=
  ⟨renderGrid_eq_rowMajor, by decide, fun _ _ => rfl, renderGrid_zero_cols⟩

/-- C4 counterexample: a 3-row, 2-column grid of the codes of ABCDEF does
not render as the claimed string (it renders as AB, CD, EF on three lines),
and a 2-row, 0-column grid renders as two newlines, not the empty
string. -/
theorem render_claim_instance_fails :
    renderGrid 3 2 grid32 = "AB\nCD\nEF\n" ∧
    ("AB\nCD\nEF\n" : String) ≠ "ABC\nDEF\n" ∧
    renderGrid 2 0 (fun _ _ => 'X') = "\n\n" ∧
    ("\n\n" : String) ≠ "" :=
  ⟨by decide, by decide, by decide, by decide⟩

/-- C5: every command registered in NLE_ACTIONS resolves (after stripping
and lowering) to exactly its registered index, the indices are pairwise
distinct, and the reverse mapping from index to command is unique. -/
theorem action_table_exact :
    (∀ p ∈ NLE_ACTIONS, resolveInput p.1 = Resolution.act (Int.ofNat p.2)) ∧
    (NLE_ACTIONS.map Prod.snd).Nodup ∧
    (∀ p ∈ NLE_ACTIONS, ∀ q ∈ NLE_ACTIONS, p.2 = q.2 → p = q) :=
  ⟨by decide, by decide, by decide⟩

/-- C5 witness: the command wait resolves to its registered index 19. -/
theorem action_table_exact_witness :
    resolveInput "wait" = Resolution.act 19 :=
  action_table_exact.1 ("wait", 19) (by decide)

/-- C6: an input of the form action followed by an integer token resolves
to that integer whatever the table holds, and the input action abc is
rejected through the recoverable UnknownCommand condition, producing no
action index. -/
theorem action_escape_hatch :
    (∀ (table : List (List Char × Int)) (tok : List Char) (n : Int),
        pyInt? tok = some n →
        resolveChars table ("action ".data ++ tok) = Resolution.act n) ∧
    resolveInput "action 17" = Resolution.act 17 ∧
    resolveInput "action abc" = Resolution.parseError ∧
    (resolveInput "action abc").isUnknownCommand = true :=
  ⟨resolveChars_action_escape, by decide, by decide, by decide⟩

/-- C6 witness: the escape hatch on the empty table with the token 17. -/
theorem action_escape_hatch_witness :
    resolveChars [] ("action ".data ++ "17".data) = Resolution.act 17 :=
  action_escape_hatch.1 [] "17".data 17 (by decide)

/-- C7: an input rejected by the resolver (no table key, no well-formed
action-index form, no meta command) leaves the loop state untouched apart
from the input counter: the environment is not stepped (the env.step call
counter is unchanged), no row is recorded, the step counter is unchanged,
and the loop continues with the next prompt. -/
theorem unknown_command_reprompts (sc : Script) (st : LoopState)
    (max_steps fuel : Nat)
    (hres : (resolveInput (sc.inputs st.inputCount)).isUnknownCommand = true)
    (hd : st.done = false) (hlt : st.step < max_steps) :
    loopIter sc st = IterOut.cont { st with inputCount := st.inputCount + 1 } ∧
    loopRun sc max_steps (fuel + 1) st =
      loopRun sc max_steps fuel { st with inputCount := st.inputCount + 1 } :=
  have h := loopIter_reject sc st hres
  ⟨h, loopRun_cont sc max_steps fuel st _ hd hlt h⟩

/-- C7 witness: the unrecognized input xyzzy re-prompts on a concrete
script. -/
theorem unknown_command_reprompts_witness :
    loopIter scBad (initState scBad) =
      IterOut.cont { initState scBad with inputCount := 1 } ∧
    loopRun scBad 5 1 (initState scBad) =
      loopRun scBad 5 0 { initState scBad with inputCount := 1 } :=
  unknown_command_reprompts scBad (initState scBad) 5 0 rfl rfl (by decide)

/-- C8: whenever a run persists both a summary and a trajectory file, the
summary's episode_return equals the sum of the rewards recorded in the
file's data rows. -/
theorem summary_return_matches_log (sc : Script) (max_steps fuel : Nat)
    (f : List CsvLine) (s : Summary)
    (hf : (runEpisode sc max_steps fuel).csvFile = some f)
    (hs : (runEpisode sc max_steps fuel).summary = some s) :
    s.episode_return = (f.filterMap lineReward).sum := by
  by_cases hc : sc.createFails = true
  · rw [runEpisode, if_pos hc] at hf
    exact absurd hf (by simp)
  · by_cases hr : sc.resetFails = true
    · rw [runEpisode, if_neg hc, if_pos hr] at hf
      exact absurd hf (by simp)
    · cases hlr : loopRun sc max_steps fuel (initState sc) with
      | none =>
        rw [runEpisode, if_neg hc, if_neg hr, hlr] at hf
        exact absurd hf (by simp)
      | some p =>
        obtain ⟨st, reason⟩ := p
        obtain ⟨hinv1, hinv2, hinv3⟩ :=
          loopInv_run sc max_steps fuel (initState sc) st reason
            (loopInv_init sc) hlr
        rw [runEpisode, if_neg hc, if_neg hr, hlr] at hf hs
        simp only [Option.some.injEq] at hf hs
        subst hf
        subst hs
        simp only [mkSummary, List.filterMap_cons, lineReward, hinv3]
        congr 1
        rw [List.filterMap_map]
        symm
        exact congrFun (List.filterMap_eq_map CsvRow.reward) st.csvRows

/-- C8 witness: a one-step episode of reward 3 whose summary return equals
the sum over the logged rows. -/
theorem summary_return_matches_log_witness :
    ({ steps := 1, total_reward := 3, mean_reward := 3, actions := [("w", 1)],
       episode_return := 3, num_steps := 1 } : Summary).episode_return =
      (([CsvLine.header,
         CsvLine.data
           { step := 0, action_str := "w", action := 1, obsStr := "o",
             reward := 3, done := false }] : List CsvLine).filterMap
        lineReward).sum :=
  summary_return_matches_log scOne 5 3 _ _ (by with_unfolding_all decide)
    (by with_unfolding_all decide)

/-- C9: the snapshot serializer maps every numpy-array field of the
observation to its tolist() conversion, a value built only of nested plain
lists and scalars; and when the snapshot write of a successfully applied
step fails, the iteration still continues with that step's csv row already
appended and the snapshot store unchanged. -/
theorem snapshot_conversion_isolation :
    (∀ (fields : List (String × PyVal)) (k : String) (a : NDArr),
        (k, PyVal.ndarray a) ∈ fields →
        (k, PyVal.plain (ndToJson a)) ∈ serializeObs fields) ∧
    (∀ (sc : Script) (st : LoopState) (a : Int) (r : StepOk),
        resolveInput (sc.inputs st.inputCount) = Resolution.act a →
        sc.envStep st.envCalls = StepOutcome.ok r →
        r.snapFails = true →
        ∃ st1 row, loopIter sc st = IterOut.cont st1 ∧ st1.snaps = st.snaps ∧
          st1.csvRows = st.csvRows ++ [row]) := by
  constructor
  · intro fields k a h
    exact List.mem_map.mpr ⟨(k, PyVal.ndarray a), h, rfl⟩
  · intro sc st a r hres henv hsnap
    exact loopIter_snapfail sc st a r hres henv hsnap

/-- C9 witness: the glyphs array field is serialized to its conversion, and
a failing snapshot write on a concrete script leaves the appended csv row
in place. -/
theorem snapshot_conversion_isolation_witness :
    ("glyphs",
      PyVal.plain (ndToJson (NDArr.arr [NDArr.scalar 1, NDArr.scalar 2]))) ∈
      serializeObs obsF.fields ∧
    (∃ st1 row, loopIter scSnap (initState scSnap) = IterOut.cont st1 ∧
      st1.snaps = (initState scSnap).snaps ∧
      st1.csvRows = (initState scSnap).csvRows ++ [row]) :=
  ⟨snapshot_conversion_isolation.1 obsF.fields "glyphs"
      (NDArr.arr [NDArr.scalar 1, NDArr.scalar 2]) (by simp [obsF]),
   snapshot_conversion_isolation.2 scSnap (initState scSnap) 1
      { nextObs := obsF, reward := 2, done := false, snapFails := true }
      rfl rfl rfl⟩

/-- C10: after any sequence of add_step calls on a fresh tracker, the
cumulative reward is the sum of the reward list, the step count is both the
length of the reward list and the total of the per-action counts, and
get_stats reports mean_reward as the cumulative reward divided by the
larger of one and the step count, which is defined and zero for a zero-step
episode. -/
theorem tracker_stats_consistent (l : List (String × ℚ × Option ObsD)) :
    (runTracker l).total_reward = (runTracker l).rewards.sum ∧
    (runTracker l).steps = (runTracker l).rewards.length ∧
    (((runTracker l).actions.map Prod.snd).sum = (runTracker l).steps) ∧
    (runTracker l).get_stats.mean_reward =
      (runTracker l).total_reward / ((max 1 (runTracker l).steps : Nat) : ℚ) ∧
    GameTracker.init.get_stats.mean_reward = 0 :=
  have h := trackerInv_runTracker l
  ⟨h.1, h.2.1, h.2.2, rfl, by with_unfolding_all decide⟩

end TWM
